import Mathlib

/-!
Verification of the pin-fixer module: a shallow embedding in Lean 4 of the
single source file `pin-fixer.js`, together with theorems settling the
specified properties.

The module rescales map-pin icons and HUD overlays as the user zooms a 2D
canvas.  Its logic-bearing core is a scale pipeline (clamp, then linear
range-remap, then reciprocal composition) driven by a per-scene
configuration record read with per-field defaults, plus stateful appliers
that write the computed scale into pin transforms and HUD CSS.

Modelling conventions:
* JavaScript numbers are modelled as exact rationals (`ℚ`) in the main
  embedding; the claims under study never depend on rounding.  Division by
  zero, however, behaves differently in `ℚ` (it yields 0) than in IEEE
  doubles (it yields an infinity or NaN), so a second, explicitly named
  model `JNum` (rationals extended with `posInf`, `negInf` and `nan`,
  with IEEE-style special-value propagation) is used for the claims that
  are about division artifacts.  On finite values with non-zero
  denominators the two models agree.
* The ambient host state gets passed explicitly: the scene flag record
  (`canvas.scene.data.flags`) becomes a `SceneFlags` argument, and the host
  constant `CONFIG.Canvas.maxZoom` becomes an argument `mz`.
* Optional JS fields become `Option`; `a ?? b` becomes `Option.getD`,
  `a?.b` becomes `Option.bind`.
* The DOM and the canvas note collection become a `World` record; setting
  a CSS `transform: scale(s)` is modelled by the `HudTransform` datatype
  (the exact CSS string carries no further information).
-/

namespace PinFixer

/-- The per-scene `pinfix` flag record.  Every field is optional: the user
may never have configured the scene, or the record may have been written by
an older version.  Mirrors the `PinFixSettings` typedef in the source. -/
structure PinfixFlags where
  enable    : Option Bool
  zoomFloor : Option ℚ
  zoomCeil  : Option ℚ
  minScale  : Option ℚ
  maxScale  : Option ℚ
  hudScale  : Option ℚ
  deriving DecidableEq, Repr

/-- The scene's flag bag (`canvas.scene.data.flags`); the `pinfix` key may
be absent entirely. -/
structure SceneFlags where
  pinfix : Option PinfixFlags
  deriving DecidableEq, Repr

/-- Source: `static get minCanvScale() { return 0.1; }` -/
def minCanvScale : ℚ := 1/10

/-- Source: `static get enabled() { return Boolean(this.flags.pinfix?.enable); }`
(`Boolean(undefined)` is `false`). -/
def enabled (f : SceneFlags) : Bool :=
  (f.pinfix.bind PinfixFlags.enable).getD false

/-- Source: `static get zoomFloor() { return Number(this.flags.pinfix?.zoomFloor ?? this.minCanvScale); }` -/
def zoomFloor (f : SceneFlags) : ℚ :=
  (f.pinfix.bind PinfixFlags.zoomFloor).getD minCanvScale

/-- Source: `static get zoomCeil() { return Number(this.flags.pinfix?.zoomCeil ?? this.maxCanvScale); }`
where `maxCanvScale` is the host constant `CONFIG.Canvas.maxZoom`, passed
here as the explicit argument `mz`. -/
def zoomCeil (f : SceneFlags) (mz : ℚ) : ℚ :=
  (f.pinfix.bind PinfixFlags.zoomCeil).getD mz

/-- Source: `static get minScale() { return Number(this.flags.pinfix?.minScale ?? 1); }` -/
def minScale (f : SceneFlags) : ℚ :=
  (f.pinfix.bind PinfixFlags.minScale).getD 1

/-- Source: `static get maxScale() { return Number(this.flags.pinfix?.maxScale ?? 1); }` -/
def maxScale (f : SceneFlags) : ℚ :=
  (f.pinfix.bind PinfixFlags.maxScale).getD 1

/-- Source: `static get hudScale() { return Number(this.flags.pinfix?.hudScale ?? 1); }` -/
def hudScale (f : SceneFlags) : ℚ :=
  (f.pinfix.bind PinfixFlags.hudScale).getD 1

/-- Source: `static reciprocal(number) { return 1 / number; }` -/
def reciprocal (number : ℚ) : ℚ := 1 / number

/-- Source: `static map(from, to, s) { return to[0] + (s - from[0]) * (to[1] - to[0]) / (from[1] - from[0]); }`
The linear range mapper: no bounds check, no guard on the source interval. -/
def map (from_ to_ : ℚ × ℚ) (s : ℚ) : ℚ :=
  to_.1 + (s - from_.1) * (to_.2 - to_.1) / (from_.2 - from_.1)

/-- Host helper `Math.clamped(num, min, max)` (Foundry VTT core):
`Math.min(max, Math.max(num, min))`. -/
def clamped (num lo hi : ℚ) : ℚ := min hi (max num lo)

/-- Source: `static clampZoom(zoom) { return Math.clamped(zoom, this.zoomFloor, this.zoomCeil); }` -/
def clampZoom (f : SceneFlags) (mz : ℚ) (zoom : ℚ) : ℚ :=
  clamped zoom (zoomFloor f) (zoomCeil f mz)

/-- Source: `static remapZoom(zoom) { return this.map([this.zoomFloor, this.zoomCeil], [this.minScale, this.maxScale], zoom); }` -/
def remapZoom (f : SceneFlags) (mz : ℚ) (zoom : ℚ) : ℚ :=
  map (zoomFloor f, zoomCeil f mz) (minScale f, maxScale f) zoom

/-- Source: `static noteScaleFactor(scale) { return this.remapZoom(this.clampZoom(scale)); }` -/
def noteScaleFactor (f : SceneFlags) (mz : ℚ) (scale : ℚ) : ℚ :=
  remapZoom f mz (clampZoom f mz scale)

/-- Source: `static noteScaleBasic(scale) { return this.reciprocal(scale); }` -/
def noteScaleBasic (scale : ℚ) : ℚ := reciprocal scale

/-- Source: `static hudScaleFactor(scale) { return this.noteScaleBasic(scale) * this.hudScale; }` -/
def hudScaleFactor (f : SceneFlags) (scale : ℚ) : ℚ :=
  noteScaleBasic scale * hudScale f

/-- Source: `static noteScaleConfigured(scale) { return this.reciprocal(scale) * this.noteScaleFactor(scale); }` -/
def noteScaleConfigured (f : SceneFlags) (mz : ℚ) (scale : ℚ) : ℚ :=
  reciprocal scale * noteScaleFactor f mz scale

/-!
## The special-value model `JNum`

The pipeline runs on IEEE doubles, where a division by zero does not yield
0 (as `ℚ` division does) but an infinity or NaN.  `JNum` is the rationals
extended with `posInf`, `negInf` and `nan`, with the IEEE propagation rules
for the arithmetic the source uses (`+`, `-`, `*`, `/`, `Math.min`,
`Math.max`).  Finite values are kept exact (no rounding), which is faithful
for the claims at stake: whether a result is finite never depends on
rounding here.  Only one zero is modelled (IEEE `+0`); the source never
produces `-0` on the paths under study.
-/

/-- A JavaScript number: a finite (exact) value, an infinity, or NaN. -/
inductive JNum where
  | fin (q : ℚ)
  | posInf
  | negInf
  | nan
  deriving DecidableEq, Repr

namespace JNum

/-- IEEE addition on `JNum`. -/
def add : JNum → JNum → JNum
  | fin a,  fin b  => fin (a + b)
  | nan,    _      => nan
  | _,      nan    => nan
  | posInf, negInf => nan
  | negInf, posInf => nan
  | posInf, _      => posInf
  | _,      posInf => posInf
  | negInf, _      => negInf
  | _,      negInf => negInf

/-- IEEE negation on `JNum`. -/
def neg : JNum → JNum
  | fin a  => fin (-a)
  | posInf => negInf
  | negInf => posInf
  | nan    => nan

/-- IEEE subtraction on `JNum`. -/
def sub (a b : JNum) : JNum := add a (neg b)

/-- IEEE multiplication on `JNum` (`Infinity * 0` is NaN). -/
def mul : JNum → JNum → JNum
  | fin a,  fin b  => fin (a * b)
  | nan,    _      => nan
  | _,      nan    => nan
  | posInf, posInf => posInf
  | posInf, negInf => negInf
  | negInf, posInf => negInf
  | negInf, negInf => posInf
  | posInf, fin b  => if b = 0 then nan else if 0 < b then posInf else negInf
  | fin a,  posInf => if a = 0 then nan else if 0 < a then posInf else negInf
  | negInf, fin b  => if b = 0 then nan else if 0 < b then negInf else posInf
  | fin a,  negInf => if a = 0 then nan else if 0 < a then negInf else posInf

/-- IEEE division on `JNum`: a finite value divided by (positive) zero is a
signed infinity; `0 / 0` is NaN. -/
def div : JNum → JNum → JNum
  | fin a,  fin b  =>
      if b = 0 then (if a = 0 then nan else if 0 < a then posInf else negInf)
      else fin (a / b)
  | nan,    _      => nan
  | _,      nan    => nan
  | posInf, posInf => nan
  | posInf, negInf => nan
  | negInf, posInf => nan
  | negInf, negInf => nan
  | fin _,  posInf => fin 0
  | fin _,  negInf => fin 0
  | posInf, fin b  => if 0 ≤ b then posInf else negInf
  | negInf, fin b  => if 0 ≤ b then negInf else posInf

/-- Semantics of `Math.max` on `JNum`: NaN-propagating maximum. -/
def jmax : JNum → JNum → JNum
  | nan,    _      => nan
  | _,      nan    => nan
  | posInf, _      => posInf
  | _,      posInf => posInf
  | negInf, b      => b
  | a,      negInf => a
  | fin a,  fin b  => fin (max a b)

/-- Semantics of `Math.min` on `JNum`: NaN-propagating minimum. -/
def jmin : JNum → JNum → JNum
  | nan,    _      => nan
  | _,      nan    => nan
  | negInf, _      => negInf
  | _,      negInf => negInf
  | posInf, b      => b
  | a,      posInf => a
  | fin a,  fin b  => fin (min a b)

/-- A `JNum` is finite when it is a `fin` value (not an infinity, not NaN). -/
def isFinite : JNum → Bool
  | fin _ => true
  | _     => false

end JNum

/-- Source: `PinFixer.map` evaluated in the special-value model: the very same
expression `to[0] + (s - from[0]) * (to[1] - to[0]) / (from[1] - from[0])`,
with each operation given its IEEE behaviour. -/
def mapJ (from_ to_ : JNum × JNum) (s : JNum) : JNum :=
  JNum.add to_.1 (JNum.div (JNum.mul (JNum.sub s from_.1) (JNum.sub to_.2 to_.1))
    (JNum.sub from_.2 from_.1))

/-- Source: `Math.clamped` in the special-value model. -/
def clampedJ (num lo hi : JNum) : JNum := JNum.jmin hi (JNum.jmax num lo)

/-- Source: `clampZoom` in the special-value model (configuration fields are flag
values, hence finite). -/
def clampZoomJ (f : SceneFlags) (mz : ℚ) (zoom : JNum) : JNum :=
  clampedJ zoom (JNum.fin (zoomFloor f)) (JNum.fin (zoomCeil f mz))

/-- Source: `remapZoom` in the special-value model. -/
def remapZoomJ (f : SceneFlags) (mz : ℚ) (zoom : JNum) : JNum :=
  mapJ (JNum.fin (zoomFloor f), JNum.fin (zoomCeil f mz))
    (JNum.fin (minScale f), JNum.fin (maxScale f)) zoom

/-- Source: `noteScaleFactor` in the special-value model. -/
def noteScaleFactorJ (f : SceneFlags) (mz : ℚ) (scale : JNum) : JNum :=
  remapZoomJ f mz (clampZoomJ f mz scale)

/-- Source: `reciprocal` in the special-value model. -/
def reciprocalJ (number : JNum) : JNum := JNum.div (JNum.fin 1) number

/-- Source: `noteScaleConfigured` in the special-value model. -/
def noteScaleConfiguredJ (f : SceneFlags) (mz : ℚ) (scale : JNum) : JNum :=
  JNum.mul (reciprocalJ scale) (noteScaleFactorJ f mz scale)

/-!
## The stateful model

The appliers mutate two kinds of host state: the scale of each `Note` on
the canvas (`note.transform.scale.x/.y`) and the CSS `transform` of HUD
overlay elements looked up by DOM id (`document.getElementById`).  Both are
gathered in a `World` record and the appliers become `World → World`
functions.  A CSS transform is either unset (the empty string written by
`resetHudScale`) or `scale(s)` (written by `scaleHUD`); nothing else is
ever written, so the `HudTransform` datatype loses no information.
-/

/-- A map pin: its uniform 2D transform scale (`note.transform.scale`). -/
structure Note where
  scaleX : ℚ
  scaleY : ℚ
  deriving DecidableEq, Repr

/-- The CSS `transform` of a HUD element: cleared (empty string) or
`scale(s)`. -/
inductive HudTransform where
  | unset
  | scaled (s : ℚ)
  deriving DecidableEq, Repr

/-- A HUD overlay element currently mounted in the document, addressed by
its DOM id. -/
structure HudElem where
  elemId : String
  transform : HudTransform
  deriving DecidableEq, Repr

/-- The mutable host state the module touches: the scene's notes
(`canvas.notes.objects.children`) and the mounted HUD elements (the
document). -/
structure World where
  notes : List Note
  doc : List HudElem
  deriving DecidableEq, Repr

/-- The element ids of the `huds` descriptor list:
`[{ hook: "renderPinCushionHUD", id: "pin-cushion-hud" }, { hook: "renderPoiTpHUD", id: "poi-tp-ctx-menu" }]`.
(The hook names only matter for registration, which is host glue.) -/
def hudIds : List String := ["pin-cushion-hud", "poi-tp-ctx-menu"]

/-- Source: `static scaleNote(note, scale) { note.transform.scale.x = scale; note.transform.scale.y = scale; }` -/
def scaleNote (note : Note) (scale : ℚ) : Note :=
  { note with scaleX := scale, scaleY := scale }

/-- Source: `static scaleNotes(scale)`: computes `noteScaleConfigured(scale)` once
and applies it to every note in the scene. -/
def scaleNotes (f : SceneFlags) (mz : ℚ) (w : World) (scale : ℚ) : World :=
  let scaled := noteScaleConfigured f mz scale
  { w with notes := w.notes.map (fun note => scaleNote note scaled) }

/-- Source: `static scaleHUD(hudId, scale)`: looks the element up by id; if mounted,
sets its CSS transform to `scale(scale)`; otherwise no-op. -/
def scaleHUD (doc : List HudElem) (hudId : String) (scale : ℚ) : List HudElem :=
  doc.map (fun h => if h.elemId = hudId then { h with transform := .scaled scale } else h)

/-- Source: `static scaleHUDs(scale)`: computes `hudScaleFactor(scale)` once and
applies it to every known HUD id. -/
def scaleHUDs (f : SceneFlags) (doc : List HudElem) (scale : ℚ) : List HudElem :=
  let hs := hudScaleFactor f scale
  hudIds.foldl (fun d hudId => scaleHUD d hudId hs) doc

/-- Source: `static resetHudScale(hudId)`: if the element is mounted, clears its CSS
transform (sets it to the empty string). -/
def resetHudScale (doc : List HudElem) (hudId : String) : List HudElem :=
  doc.map (fun h => if h.elemId = hudId then { h with transform := .unset } else h)

/-- Source: `static resetHUDs()`: clears every known HUD. -/
def resetHUDs (doc : List HudElem) : List HudElem :=
  hudIds.foldl resetHudScale doc

/-- Source: `static reset() { this.scaleNotes(1); this.resetHUDs(); }` -/
def reset (f : SceneFlags) (mz : ℚ) (w : World) : World :=
  let w1 := scaleNotes f mz w 1
  { w1 with doc := resetHUDs w1.doc }

/-- Source: `static canvasPan(canvas, pan)`: returns early unless enabled, else
rescales all notes and all HUDs at `pan.scale`. -/
def canvasPan (f : SceneFlags) (mz : ℚ) (w : World) (panScale : ℚ) : World :=
  if !enabled f then w
  else
    let w1 := scaleNotes f mz w panScale
    { w1 with doc := scaleHUDs f w1.doc panScale }

/-- Source: `static renderHUD(id, hud, html, data)`: returns early unless enabled,
else rescales the one HUD at the current stage scale
(`canvas.stage.scale.x`, passed here as `stageScale`). -/
def renderHUD (f : SceneFlags) (w : World) (hudId : String) (stageScale : ℚ) : World :=
  if !enabled f then w
  else { w with doc := scaleHUD w.doc hudId (hudScaleFactor f stageScale) }

/-- Source: `static updateScene(scene, data, options)`: resets everything when not
enabled, else behaves as a pan at the current stage scale. -/
def updateScene (f : SceneFlags) (mz : ℚ) (w : World) (stageScale : ℚ) : World :=
  if !enabled f then reset f mz w
  else canvasPan f mz w stageScale

/-!
## The scene-configuration sheet

`renderSceneConfig` injects a settings fragment into the host's
scene-configuration form.  The fragment (`getSceneHtml`) is a fixed HTML
template fully determined by the `PinFixSettings` record it is given, so
the sheet is modelled as the host's own content plus the list of injected
records; injection appends one record.  `getSceneTemplateData` reads the
record that prepopulates the form.
-/

/-- The `entity` of the data passed to the scene-config template: its flag
bag may be absent. -/
structure EntityData where
  flags : Option SceneFlags
  deriving DecidableEq, Repr

/-- The data passed to the scene-config template rendering. -/
structure TemplateData where
  entity : Option EntityData
  deriving DecidableEq, Repr

/-- The full default settings record returned by `getSceneTemplateData`
when the scene has no `pinfix` record:
`{ enable: false, zoomFloor: this.minCanvScale, zoomCeil: this.maxCanvScale, minScale: 1, maxScale: 1, hudScale: 1 }`. -/
def defaultTemplateData (mz : ℚ) : PinfixFlags :=
  { enable := some false, zoomFloor := some minCanvScale, zoomCeil := some mz,
    minScale := some 1, maxScale := some 1, hudScale := some 1 }

/-- Source: `static getSceneTemplateData(data) { return data.entity?.flags?.pinfix || { ... } }`:
a present `pinfix` record is an object, hence truthy, and is returned
as-is; the default record is used only when the chain yields
undefined/null. -/
def getSceneTemplateData (data : TemplateData) (mz : ℚ) : PinfixFlags :=
  match (data.entity.bind EntityData.flags).bind SceneFlags.pinfix with
  | some pf => pf
  | none => defaultTemplateData mz

/-- The host's scene-configuration sheet: its own form content (abstract)
and the settings records injected by this module. -/
structure ConfigSheet where
  hostGroups : ℕ
  injected : List PinfixFlags
  deriving DecidableEq, Repr

/-- Source: `static renderSceneConfig(sceneConfig, html, data)`: unconditionally
appends the settings fragment, prepopulated from
`getSceneTemplateData(data)`, after the last form group.  There is no
`enabled` guard on this entry point. -/
def renderSceneConfig (sheet : ConfigSheet) (data : TemplateData) (mz : ℚ) : ConfigSheet :=
  { sheet with injected := sheet.injected ++ [getSceneTemplateData data mz] }

/-!
## Example configurations

Concrete scenes used by the counterexamples and witnesses below.  The host
constant `CONFIG.Canvas.maxZoom` is taken as 3 (its Foundry default)
wherever a concrete value is needed; none of the results depend on it.
-/

/-- The spec's worked example: `zoomFloor=0.1, zoomCeil=2.0, minScale=1,
maxScale=0.5` (scaling disabled; `hudScale` unset). -/
def exampleFlags : SceneFlags :=
  ⟨some ⟨some false, some (1/10), some 2, some 1, some (1/2), none⟩⟩

/-- A scene holding one note at scale 5 and one mounted HUD with a
`scale(2)` transform override. -/
def exampleWorld : World :=
  ⟨[⟨5, 5⟩], [⟨"pin-cushion-hud", .scaled 2⟩]⟩

/-- A degenerate configuration: `zoomFloor = zoomCeil = 1` with
`minScale = maxScale = 1`, scaling enabled. -/
def degenerateFlags : SceneFlags :=
  ⟨some ⟨some true, some 1, some 1, some 1, some 1, none⟩⟩

/-- A scene where scaling is explicitly disabled and every other field is
left to its default. -/
def disabledDefaultFlags : SceneFlags :=
  ⟨some ⟨some false, none, none, none, none, none⟩⟩

/-!
## Theorems
-/

/-- C1: for every zoom value and configuration (with the spec's assumed
well-formedness `zoomFloor ≤ zoomCeil`), the pin scale pipeline clamps the
zoom into `[zoomFloor, zoomCeil]` (values outside pulled to the nearer
bound, values inside unchanged), `noteScaleFactor` range-maps the clamped
value from `[zoomFloor, zoomCeil]` to `[minScale, maxScale]`, and
`noteScaleConfigured zoom = (1/zoom) * noteScaleFactor zoom`. -/
theorem C1_scale_pipeline (f : SceneFlags) (mz z : ℚ)
    (h : zoomFloor f ≤ zoomCeil f mz) :
    (z < zoomFloor f → clampZoom f mz z = zoomFloor f) ∧
    (zoomCeil f mz < z → clampZoom f mz z = zoomCeil f mz) ∧
    (zoomFloor f ≤ z → z ≤ zoomCeil f mz → clampZoom f mz z = z) ∧
    noteScaleFactor f mz z
      = map (zoomFloor f, zoomCeil f mz) (minScale f, maxScale f) (clampZoom f mz z) ∧
    noteScaleConfigured f mz z = 1 / z * noteScaleFactor f mz z := by
  refine ⟨?_, ?_, ?_, rfl, rfl⟩
  · intro hz
    rw [clampZoom, clamped, max_eq_right hz.le, min_eq_right h]
  · intro hz
    rw [clampZoom, clamped, max_eq_left (h.trans hz.le), min_eq_left hz.le]
  · intro h1 h2
    rw [clampZoom, clamped, max_eq_left h1, min_eq_right h2]

/-- C1 witness: the pipeline evaluated on the spec's example configuration
at a zoom below the floor. -/
theorem C1_scale_pipeline_witness :
    clampZoom exampleFlags 3 (1/20) = zoomFloor exampleFlags ∧
    noteScaleConfigured exampleFlags 3 (1/20)
      = 1 / (1/20) * noteScaleFactor exampleFlags 3 (1/20) := by
  have h := C1_scale_pipeline exampleFlags 3 (1/20)
    (by norm_num [zoomFloor, zoomCeil, exampleFlags])
  exact ⟨h.1 (by norm_num [zoomFloor, exampleFlags]), h.2.2.2.2⟩

/-- C2: `hudScaleFactor zoom = (1/zoom) * hudScale`, and the result depends
on the configuration only through `hudScale`: any two configurations
agreeing on `hudScale` (however much they differ in `minScale`, `maxScale`,
`zoomFloor`, `zoomCeil`) give the same HUD scale factor. -/
theorem C2_hud_reciprocal (f g : SceneFlags) (z : ℚ) (h : hudScale f = hudScale g) :
    hudScaleFactor f z = 1 / z * hudScale f ∧ hudScaleFactor f z = hudScaleFactor g z :=
  ⟨rfl, by rw [hudScaleFactor, hudScaleFactor, h]⟩

/-- C2 witness: two configurations differing in every pin-curve field but
agreeing on `hudScale` give the same HUD scale factor at zoom 2. -/
theorem C2_hud_reciprocal_witness :
    hudScaleFactor ⟨some ⟨some true, some (1/2), some 2, some (1/4), some 4, some (3/2)⟩⟩ 2
      = 1 / 2 * hudScale ⟨some ⟨some true, some (1/2), some 2, some (1/4), some 4, some (3/2)⟩⟩ ∧
    hudScaleFactor ⟨some ⟨some true, some (1/2), some 2, some (1/4), some 4, some (3/2)⟩⟩ 2
      = hudScaleFactor ⟨some ⟨some false, none, none, none, none, some (3/2)⟩⟩ 2 :=
  C2_hud_reciprocal _ _ 2 rfl

/-- C3: evaluation of `reset` at the failing input.  On the spec's example
configuration (`minScale=1, maxScale=0.5`), `reset` leaves the pin at scale
`29/38 ≈ 0.763`, not 1: `reset` calls `scaleNotes(1)`, and `scaleNotes`
routes its argument through `noteScaleConfigured`, so the pin receives
`noteScaleConfigured(1) = map([0.1,2],[1,0.5],1) = 29/38`.  That
contradicts the claim, the doc comment on `reset` ("Reset all pins to
normal size") and the doc comment on `scaleNotes` (whose parameter is "the
scale to set the notes to").  The HUD half of the claim does hold: the
mounted HUD's transform override is cleared. -/
theorem C3_reset_not_scale_one :
    enabled exampleFlags = false ∧
    reset exampleFlags 3 exampleWorld
      = ⟨[⟨29/38, 29/38⟩], [⟨"pin-cushion-hud", .unset⟩]⟩ ∧
    (29/38 : ℚ) ≠ 1 := by
  refine ⟨rfl, ?_, by norm_num⟩
  norm_num [reset, scaleNotes, scaleNote, resetHUDs, resetHudScale, hudIds,
    noteScaleConfigured, noteScaleFactor, remapZoom, clampZoom, clamped, map, reciprocal,
    zoomFloor, zoomCeil, minScale, maxScale, exampleFlags, exampleWorld, min_def, max_def]

/-- C4 counterexample: with `enable = false` (all other fields default),
the scene-update entry point is not a no-op: it mutates the world (the pin
at scale 5 is rescaled to 1 and the HUD transform override is cleared,
because `updateScene` calls `reset` when disabled). -/
theorem C4_update_not_noop :
    enabled disabledDefaultFlags = false ∧
    updateScene disabledDefaultFlags 3 exampleWorld 1 ≠ exampleWorld := by
  refine ⟨rfl, ?_⟩
  have h : updateScene disabledDefaultFlags 3 exampleWorld 1
      = ⟨[⟨1, 1⟩], [⟨"pin-cushion-hud", .unset⟩]⟩ := by
    norm_num [updateScene, enabled, disabledDefaultFlags, reset, scaleNotes, scaleNote,
      resetHUDs, resetHudScale, hudIds, exampleWorld,
      noteScaleConfigured, noteScaleFactor, remapZoom, clampZoom, clamped, map, reciprocal,
      zoomFloor, zoomCeil, minScale, maxScale, min_def, max_def]
  rw [h]
  intro hEq
  have := congrArg (fun w => w.notes) hEq
  simp [exampleWorld] at this

/-- C4 as amended: when `enable` is false for the current scene, the
canvas-pan and HUD-render entry points are no-ops (in particular a pan
event leaves every pin scale and every HUD transform unchanged); the
scene-update entry point instead resets pins and HUDs; and the
scene-config-render entry point injects its settings fragment
unconditionally (it is never a no-op and is not gated on `enable`). -/
theorem C4_disabled_entry_points (f : SceneFlags) (mz : ℚ) (w : World) (s t u : ℚ)
    (hudId : String) (sheet : ConfigSheet) (data : TemplateData)
    (h : enabled f = false) :
    canvasPan f mz w s = w ∧
    renderHUD f w hudId t = w ∧
    updateScene f mz w u = reset f mz w ∧
    renderSceneConfig sheet data mz ≠ sheet := by
  refine ⟨by simp [canvasPan, h], by simp [renderHUD, h], by simp [updateScene, h], ?_⟩
  intro hEq
  have := congrArg (fun c => c.injected.length) hEq
  simp [renderSceneConfig] at this

/-- C4 witness: the amended statement evaluated on a disabled
default-configured scene. -/
theorem C4_disabled_entry_points_witness :
    canvasPan disabledDefaultFlags 3 exampleWorld 2 = exampleWorld ∧
    renderHUD disabledDefaultFlags exampleWorld "pin-cushion-hud" 2 = exampleWorld ∧
    updateScene disabledDefaultFlags 3 exampleWorld 2
      = reset disabledDefaultFlags 3 exampleWorld ∧
    renderSceneConfig ⟨4, []⟩ ⟨none⟩ 3 ≠ ⟨4, []⟩ :=
  C4_disabled_entry_points disabledDefaultFlags 3 exampleWorld 2 2 2 "pin-cushion-hud"
    ⟨4, []⟩ ⟨none⟩ rfl

/-- C5 counterexample: on the degenerate configuration
`zoomFloor = zoomCeil = 1` with `minScale = maxScale = 1`, the zoom value 1
lies in `[zoomFloor, zoomCeil]`, yet the pipeline (evaluated in the
IEEE special-value model, where `0/0` is NaN as it is on the doubles the
source runs on) yields NaN, not `1/zoom = 1`: the remap divides by
`zoomCeil - zoomFloor = 0`. -/
theorem C5_degenerate_counterexample :
    minScale degenerateFlags = 1 ∧ maxScale degenerateFlags = 1 ∧
    zoomFloor degenerateFlags = 1 ∧ zoomCeil degenerateFlags 3 = 1 ∧
    noteScaleConfiguredJ degenerateFlags 3 (JNum.fin 1) = JNum.nan ∧
    reciprocalJ (JNum.fin 1) = JNum.fin 1 ∧ JNum.nan ≠ JNum.fin 1 := by
  refine ⟨rfl, rfl, rfl, rfl, ?_, ?_, by simp⟩
  · norm_num [noteScaleConfiguredJ, noteScaleFactorJ, remapZoomJ, clampZoomJ, clampedJ,
      mapJ, reciprocalJ, zoomFloor, zoomCeil, minScale, maxScale, degenerateFlags,
      JNum.jmin, JNum.jmax, JNum.sub, JNum.add, JNum.neg, JNum.mul, JNum.div,
      min_def, max_def]
  · norm_num [reciprocalJ, JNum.div]

/-- C5 as amended: for every configuration with `minScale = maxScale = 1`
and a non-degenerate zoom interval (`zoomFloor ≠ zoomCeil`), and every zoom
in `[zoomFloor, zoomCeil]`, `noteScaleConfigured zoom = 1/zoom` (pure
reciprocal regime). -/
theorem C5_pure_reciprocal (f : SceneFlags) (mz z : ℚ)
    (_hne : zoomFloor f ≠ zoomCeil f mz)
    (hmin : minScale f = 1) (hmax : maxScale f = 1)
    (h1 : zoomFloor f ≤ z) (h2 : z ≤ zoomCeil f mz) :
    noteScaleConfigured f mz z = 1 / z := by
  have hc : clampZoom f mz z = z := by
    rw [clampZoom, clamped, max_eq_left h1, min_eq_right h2]
  simp [noteScaleConfigured, noteScaleFactor, remapZoom, hc, map, hmin, hmax, reciprocal]

/-- C5 witness: a non-degenerate `minScale = maxScale = 1` configuration at
zoom 1 gives exactly `1/1`. -/
theorem C5_pure_reciprocal_witness :
    noteScaleConfigured ⟨some ⟨some true, some (1/2), some 2, some 1, some 1, some 5⟩⟩ 3 1
      = 1 / 1 :=
  C5_pure_reciprocal ⟨some ⟨some true, some (1/2), some 2, some 1, some 1, some 5⟩⟩ 3 1
    (by norm_num [zoomFloor, zoomCeil]) rfl rfl
    (by norm_num [zoomFloor]) (by norm_num [zoomCeil])

/-- C6: the configuration getters apply defaults independently per field.
When the whole `pinfix` record is absent every getter returns its default
(`enabled` false, `zoomFloor` the minimum canvas zoom, `zoomCeil` the
maximum canvas zoom `mz`, `minScale`/`maxScale`/`hudScale` 1); when the
record is present, each getter defaults exactly when its own field is
absent and returns the stored value otherwise, and `enabled` is the
truthiness of the `enable` field defaulting to false. -/
theorem C6_per_field_defaults (f : SceneFlags) (mz : ℚ) :
    (f.pinfix = none →
      enabled f = false ∧ zoomFloor f = minCanvScale ∧ zoomCeil f mz = mz ∧
      minScale f = 1 ∧ maxScale f = 1 ∧ hudScale f = 1) ∧
    (∀ pf, f.pinfix = some pf →
      enabled f = pf.enable.getD false ∧
      (pf.zoomFloor = none → zoomFloor f = minCanvScale) ∧
      (∀ q, pf.zoomFloor = some q → zoomFloor f = q) ∧
      (pf.zoomCeil = none → zoomCeil f mz = mz) ∧
      (∀ q, pf.zoomCeil = some q → zoomCeil f mz = q) ∧
      (pf.minScale = none → minScale f = 1) ∧
      (∀ q, pf.minScale = some q → minScale f = q) ∧
      (pf.maxScale = none → maxScale f = 1) ∧
      (∀ q, pf.maxScale = some q → maxScale f = q) ∧
      (pf.hudScale = none → hudScale f = 1) ∧
      (∀ q, pf.hudScale = some q → hudScale f = q)) := by
  constructor
  · intro h
    simp [enabled, zoomFloor, zoomCeil, minScale, maxScale, hudScale, h]
  · intro pf h
    refine ⟨?_, fun hq => ?_, fun q hq => ?_, fun hq => ?_, fun q hq => ?_, fun hq => ?_,
      fun q hq => ?_, fun hq => ?_, fun q hq => ?_, fun hq => ?_, fun q hq => ?_⟩ <;>
      simp [enabled, zoomFloor, zoomCeil, minScale, maxScale, hudScale, h]
    all_goals simp [hq]

/-- C6 witness: a record present with only `zoomFloor` and `minScale` set
mixes stored values and per-field defaults. -/
theorem C6_per_field_defaults_witness :
    enabled ⟨some ⟨none, some (1/2), none, some (3/4), none, none⟩⟩ = false ∧
    zoomFloor ⟨some ⟨none, some (1/2), none, some (3/4), none, none⟩⟩ = 1/2 ∧
    zoomCeil ⟨some ⟨none, some (1/2), none, some (3/4), none, none⟩⟩ 3 = 3 ∧
    minScale ⟨some ⟨none, some (1/2), none, some (3/4), none, none⟩⟩ = 3/4 ∧
    maxScale ⟨some ⟨none, some (1/2), none, some (3/4), none, none⟩⟩ = 1 ∧
    hudScale ⟨some ⟨none, some (1/2), none, some (3/4), none, none⟩⟩ = 1 := by
  have h := (C6_per_field_defaults ⟨some ⟨none, some (1/2), none, some (3/4), none, none⟩⟩ 3).2 _ rfl
  obtain ⟨he, _, hfl, hce, _, _, hmn, hmx, _, hhs, _⟩ := h
  exact ⟨by simpa using he, hfl _ rfl, hce rfl, hmn _ rfl, hmx rfl, hhs rfl⟩

/-- C7: the spec's numeric examples on the configuration `zoomFloor=0.1,
zoomCeil=2.0, minScale=1, maxScale=0.5`: at zoom 2.0 `noteScaleConfigured`
returns 0.25; at zoom 0.05 (below the floor) the clamp yields 0.1, the
remap yields 1, and `noteScaleConfigured` returns `(1/0.05) * 1 = 20`. -/
theorem C7_numeric_examples :
    noteScaleConfigured exampleFlags 3 2 = 1/4 ∧
    clampZoom exampleFlags 3 (1/20) = 1/10 ∧
    noteScaleFactor exampleFlags 3 (1/20) = 1 ∧
    noteScaleConfigured exampleFlags 3 (1/20) = 20 := by
  refine ⟨?_, ?_, ?_, ?_⟩ <;>
    norm_num [noteScaleConfigured, noteScaleFactor, remapZoom, clampZoom, clamped, map,
      reciprocal, zoomFloor, zoomCeil, minScale, maxScale, exampleFlags, min_def, max_def]

/-- C8: the range mapper has no guard on its source interval.  On a
degenerate source interval (`f0 = f1`) it divides by zero: in the IEEE
special-value model (the semantics of the doubles the source runs on), for
all finite endpoints and input the result is a non-finite value (an
infinity or NaN) — the total function returns a division artifact rather
than raising an error. -/
theorem C8_map_degenerate_artifact (f0 t0 t1 s : ℚ) :
    JNum.isFinite
      (mapJ (JNum.fin f0, JNum.fin f0) (JNum.fin t0, JNum.fin t1) (JNum.fin s)) = false := by
  have hnum : JNum.mul (JNum.sub (JNum.fin s) (JNum.fin f0))
      (JNum.sub (JNum.fin t1) (JNum.fin t0)) = JNum.fin ((s - f0) * (t1 - t0)) := by
    simp [JNum.sub, JNum.add, JNum.neg, JNum.mul, sub_eq_add_neg]
  have hden : JNum.sub (JNum.fin f0) (JNum.fin f0) = JNum.fin 0 := by
    simp [JNum.sub, JNum.add, JNum.neg]
  simp only [mapJ]
  rw [hnum, hden]
  rcases lt_trichotomy ((s - f0) * (t1 - t0)) 0 with h | h | h
  · simp [JNum.div, JNum.add, JNum.isFinite, h.ne, h.not_lt]
  · simp [JNum.div, JNum.add, JNum.isFinite, h]
  · simp [JNum.div, JNum.add, JNum.isFinite, h.ne', h]

/-- C9: the settings-form prepopulation applies defaults all-or-nothing:
whenever the `pinfix` record is reachable (present, hence a truthy object)
it is returned as-is — individually missing fields stay missing — and the
full default record is used exactly when the record is absent. -/
theorem C9_template_all_or_nothing (data : TemplateData) (mz : ℚ) :
    (∀ pf, (data.entity.bind EntityData.flags).bind SceneFlags.pinfix = some pf →
      getSceneTemplateData data mz = pf) ∧
    ((data.entity.bind EntityData.flags).bind SceneFlags.pinfix = none →
      getSceneTemplateData data mz = defaultTemplateData mz) := by
  constructor
  · intro pf h
    simp [getSceneTemplateData, h]
  · intro h
    simp [getSceneTemplateData, h]

/-- C9 witness: a present record missing `zoomFloor` is returned as-is: its
`zoomFloor` stays missing in the template data, while the default record
would have supplied `minCanvScale`. -/
theorem C9_template_all_or_nothing_witness :
    getSceneTemplateData ⟨some ⟨some ⟨some ⟨some true, none, none, some (1/2), none, none⟩⟩⟩⟩ 3
      = ⟨some true, none, none, some (1/2), none, none⟩ ∧
    (⟨some true, none, none, some (1/2), none, none⟩ : PinfixFlags).zoomFloor = none ∧
    (defaultTemplateData 3).zoomFloor = some minCanvScale :=
  ⟨(C9_template_all_or_nothing ⟨some ⟨some ⟨some ⟨some true, none, none, some (1/2), none, none⟩⟩⟩⟩ 3).1
    ⟨some true, none, none, some (1/2), none, none⟩ rfl, rfl, rfl⟩

/-- C10: after `scaleNotes` runs, every note in the scene carries the same
scale, namely `noteScaleConfigured zoom` computed once, and each note's x
and y scale components are equal (every pin-scaling operation goes through
`scaleNote`, which assigns the same value to both components). -/
theorem C10_uniform_scale (f : SceneFlags) (mz : ℚ) (w : World) (z : ℚ) :
    ∀ note ∈ (scaleNotes f mz w z).notes,
      note.scaleX = noteScaleConfigured f mz z ∧ note.scaleY = noteScaleConfigured f mz z := by
  intro note h
  simp only [scaleNotes, List.mem_map] at h
  obtain ⟨n, _, rfl⟩ := h
  exact ⟨rfl, rfl⟩

/-- C10 witness: scaling a one-note scene (initial scale components 5 and
7) at zoom 2 under the all-default configuration yields the note
`(1/2, 1/2)`, which carries `noteScaleConfigured 2 = 1/2` in both
components. -/
theorem C10_uniform_scale_witness :
    (Note.mk (1/2) (1/2)).scaleX = noteScaleConfigured ⟨none⟩ 3 2 ∧
    (Note.mk (1/2) (1/2)).scaleY = noteScaleConfigured ⟨none⟩ 3 2 :=
  C10_uniform_scale ⟨none⟩ 3 ⟨[⟨5, 7⟩], []⟩ 2 ⟨1/2, 1/2⟩ (by
    norm_num [scaleNotes, scaleNote, noteScaleConfigured, noteScaleFactor, remapZoom,
      clampZoom, clamped, map, reciprocal, zoomFloor, zoomCeil, minScale, maxScale,
      minCanvScale, min_def, max_def])

end PinFixer
